import Mathlib

/-!
Verification of the news-extraction repository (google_news_scraper.py,
main.py, main_backup.py, resolutor_de_url.py).

The development shallowly embeds the extraction pipeline, the relative-time
parser, the candidate scanner, the link resolver and the (spec-described)
batch resolver, and proves the frozen claims about them.

Conventions used throughout:
- timestamps are integers counting seconds; `datetime.now()` becomes an
  explicit `now : Int` parameter, and `timedelta` arithmetic becomes
  second arithmetic (`timedelta(days=d)` is `86400 * d` seconds);
- Python strings are Lean `String`s; Python's falsy test on a string is an
  explicit comparison with `""`; `x in y` on strings is an executable
  substring check defined below;
- `str.lower()` is modeled with `Char.toLower` (ASCII lowering; the
  divergence on non-ASCII uppercase letters is irrelevant to the claims,
  whose pattern words are already lowercase);
- network and browser effects are passed in as explicit outcome values, so
  every function of the embedding is total and executable.
-/

/-! ### String utilities (Python `lower`, `strip`, `in`) -/

/-- ASCII whitespace recognized by Python's `\s` and `str.strip()`:
space, tab, newline, carriage return, vertical tab, form feed. -/
def isWsChar (c : Char) : Bool :=
  c = ' ' || c = '\t' || c = '\n' || c = '\r' || c = '\x0b' || c = '\x0c'

/-- Python `str.strip()` on a character list: drop whitespace from both ends. -/
def pyStrip (cs : List Char) : List Char :=
  ((cs.dropWhile isWsChar).reverse.dropWhile isWsChar).reverse

/-- Lowercase a character list (Python `str.lower()`, ASCII fragment). -/
def lowerChars (cs : List Char) : List Char :=
  cs.map Char.toLower

/-- Try to consume the literal `pat` from the front of `cs`; on success
return the rest of the input. -/
def litAt : List Char → List Char → Option (List Char)
  | [], cs => some cs
  | _ :: _, [] => none
  | p :: ps, c :: cs => if p = c then litAt ps cs else none

/-- All suffixes of a list, longest first (the start positions scanned by
`re.search`, left to right). -/
def suffixes : List Char → List (List Char)
  | [] => [[]]
  | c :: cs => (c :: cs) :: suffixes cs

/-- Substring test on character lists: some suffix of `hay` starts with
`pat` (Python `pat in hay`). -/
def containsSubChars (hay pat : List Char) : Bool :=
  (suffixes hay).any (fun s => (litAt pat s).isSome)

/-- Python `pat in hay` on strings (case-sensitive). -/
def strContainsSub (hay pat : String) : Bool :=
  containsSubChars hay.data pat.data

/-- Python `pat.lower() in hay.lower()`: case-insensitive substring test,
the repository's relevance check. -/
def containsCI (hay pat : String) : Bool :=
  containsSubChars (lowerChars hay.data) (lowerChars pat.data)

/-! ### RelativeTimeParser (`_parse_time_ago`)

`google_news_scraper.py` lines 30-77 (identical in `main.py` lines 51-87)
keeps an ordered table of regexes of the shape
`(\d+)\s*WORD[s]?\s*atrás`; the first one matching anywhere in the
lowercased, stripped text wins, and the matched integer is converted with
`timedelta` arithmetic.  `main_backup.py` lines 142-162 uses a variant
table with an explicit linear factor.  Both are embedded below with a
hand-written matcher for exactly these regex shapes. -/

inductive TimeUnit where
  | minutes | hours | days | weeks | months | years
deriving DecidableEq, Repr

/-- One entry of the pattern table of `_parse_time_ago`
(`google_news_scraper.py` lines 45-53): the unit word, whether the regex
carries an optional plural `[s]?`, and the unit it reports. -/
structure GRule where
  word : List Char
  optS : Bool
  unit : TimeUnit

/-- The trailing literal of every pattern. -/
def atrasLit : List Char := "atrás".data

/-- Consume `\s*atrás` from the front of `cs` (the match is allowed to end
before the end of the input, as with `re.search`). -/
def finishAtras (cs : List Char) : Bool :=
  (litAt atrasLit (cs.dropWhile isWsChar)).isSome

/-- Parse a maximal digit run into its value (the `(\d+)` group and
Python's `int`). -/
def takeDigitsAux : List Char → Nat → Nat × List Char
  | [], acc => (acc, [])
  | c :: cs, acc =>
    if c.isDigit then takeDigitsAux cs (acc * 10 + (c.toNat - '0'.toNat))
    else (acc, c :: cs)

/-- `(\d+)` at the front of the input: at least one digit, maximal run. -/
def takeDigits : List Char → Option (Nat × List Char)
  | [] => none
  | c :: cs => if c.isDigit then some (takeDigitsAux (c :: cs) 0) else none

/-- Match `(\d+)\s*word[s]?\s*atrás` (with the `[s]?` present only when
`optS` is true) anchored at the front of `cs`; return the captured
integer.  Greedy consumption of the optional `s` is completed by a
backtracking alternative, mirroring the regex semantics. -/
def matchRuleAt (word : List Char) (optS : Bool) (cs : List Char) : Option Nat :=
  match takeDigits cs with
  | none => none
  | some (n, rest) =>
    match litAt word (rest.dropWhile isWsChar) with
    | none => none
    | some r1 =>
      match r1 with
      | 's' :: r2 =>
        if optS then
          if finishAtras r2 then some n
          else if finishAtras r1 then some n else none
        else if finishAtras r1 then some n else none
      | _ => if finishAtras r1 then some n else none

/-- Match `(\d+)\s*m[eê]s(?:es)?\s*atrás` anchored at the front
(`main_backup.py` line 152), with the regex's greedy-then-backtrack
treatment of the optional `es`. -/
def matchMesAt (cs : List Char) : Option Nat :=
  match takeDigits cs with
  | none => none
  | some (n, rest) =>
    match rest.dropWhile isWsChar with
    | 'm' :: c :: 's' :: r3 =>
      if c = 'e' ∨ c = 'ê' then
        match r3 with
        | 'e' :: 's' :: r5 =>
          if finishAtras r5 then some n
          else if finishAtras r3 then some n else none
        | _ => if finishAtras r3 then some n else none
      else none
    | _ => none

/-- `re.search`: try the anchored matcher at every start position, left to
right, and keep the first hit. -/
def searchRule (m : List Char → Option Nat) : List (List Char) → Option Nat
  | [] => none
  | s :: rest =>
    match m s with
    | some n => some n
    | none => searchRule m rest

/-- The ordered pattern table of `google_news_scraper.py` lines 45-53, in
dict insertion order. -/
def googleRules : List GRule :=
  [ ⟨"hora".data, true, .hours⟩,
    ⟨"dia".data, true, .days⟩,
    ⟨"semana".data, true, .weeks⟩,
    ⟨"mês".data, false, .months⟩,
    ⟨"meses".data, false, .months⟩,
    ⟨"ano".data, true, .years⟩,
    ⟨"minuto".data, true, .minutes⟩ ]

/-- The `if unit == ... return now - timedelta(...)` dispatch of
`_parse_time_ago` (lines 60-71), in seconds: `timedelta(minutes=v)`,
`timedelta(hours=v)`, `timedelta(days=v)`, `timedelta(weeks=v)`,
`timedelta(days=v*30)`, `timedelta(days=v*365)`. -/
def timeOffset (v : Nat) : TimeUnit → Int
  | .minutes => (v : Int) * 60
  | .hours => (v : Int) * 3600
  | .days => (v : Int) * 86400
  | .weeks => ((7 : Nat) * v : Nat) * 86400
  | .months => ((v * 30 : Nat) : Int) * 86400
  | .years => ((v * 365 : Nat) : Int) * 86400

/-- Linear per-unit scale in seconds, as the spec states it (weeks are 7
days, months 30 days, years 365 days). -/
def unitSeconds : TimeUnit → Int
  | .minutes => 60
  | .hours => 3600
  | .days => 86400
  | .weeks => 604800
  | .months => 2592000
  | .years => 31536000

/-- The pattern loop of `_parse_time_ago`: first table entry whose regex
matches wins; its value is turned into an offset from `now`. -/
def parseLoop : List GRule → List Char → Int → Option Int
  | [], _, _ => none
  | r :: rest, t, now =>
    match searchRule (matchRuleAt r.word r.optS) (suffixes t) with
    | some v => some (now - timeOffset v r.unit)
    | none => parseLoop rest t now

/-- Python `time_text.lower().strip()`. -/
def normalizeTime (s : String) : List Char :=
  pyStrip (lowerChars s.data)

/-- `GoogleNewsScraper._parse_time_ago` (`google_news_scraper.py` lines
30-77): lowercase and strip the text, then run the ordered pattern table;
no match yields `none`, never an error (the embedding is total). -/
def parseTimeAgo (timeText : String) (now : Int) : Option Int :=
  parseLoop googleRules (normalizeTime timeText) now

/-- The same pattern probe without the offset computation: which table
entry fires first, and with what captured integer. -/
def matchLoop : List GRule → List Char → Option (Nat × TimeUnit)
  | [], _ => none
  | r :: rest, t =>
    match searchRule (matchRuleAt r.word r.optS) (suffixes t) with
    | some v => some (v, r.unit)
    | none => matchLoop rest t

/-- First pattern-table hit on a phrase (value and unit). -/
def firstPatternMatch (timeText : String) : Option (Nat × TimeUnit) :=
  matchLoop googleRules (normalizeTime timeText)

/-- The rule table of `main_backup.py` lines 147-154: anchored matcher,
`timedelta` keyword unit, linear factor. -/
def backupRules : List ((List Char → Option Nat) × TimeUnit × Nat) :=
  [ (matchRuleAt "minuto".data true, .minutes, 1),
    (matchRuleAt "hora".data true, .hours, 1),
    (matchRuleAt "dia".data true, .days, 1),
    (matchRuleAt "semana".data true, .days, 7),
    (matchMesAt, .days, 30),
    (matchRuleAt "ano".data true, .days, 365) ]

/-- The rule loop of `main_backup.py` lines 155-160:
`val = int(m.group(1)) * factor; now - timedelta(**{unit: val})`. -/
def backupParseLoop : List ((List Char → Option Nat) × TimeUnit × Nat) → List Char → Int → Option Int
  | [], _, _ => none
  | (m, u, f) :: rest, t, now =>
    match searchRule m (suffixes t) with
    | some v => some (now - timeOffset (v * f) u)
    | none => backupParseLoop rest t now

/-- `GoogleNewsScraper._parse_time_ago` of `main_backup.py` lines 142-162. -/
def backupParseTimeAgo (timeText : String) (now : Int) : Option Int :=
  backupParseLoop backupRules (normalizeTime timeText) now

/-! ### Document model

`_extract_article_data` interacts with a BeautifulSoup element only
through: its tag name, its own stripped text, its own `href` attribute,
`select_one(selector)` (of which only the text and `href` of the hit are
used), and `find('a')` / `find('a', href=True)`.  An element is therefore
embedded as a record of exactly these observations. -/

/-- The observations made of a `select_one` / `find` hit: its stripped
text (`get_text(strip=True)`) and its `href` attribute. -/
structure SubNode where
  text : String
  href : Option String
deriving DecidableEq

/-- One candidate element of the parsed document. -/
structure Element where
  /-- Tag name (`element.name`). -/
  name : String
  /-- `element.get_text(strip=True)`. -/
  text : String
  /-- `element.get('href')` of the element itself. -/
  href : Option String
  /-- `element.select_one(selector)`. -/
  selOne : String → Option SubNode
  /-- `element.find('a')`: first descendant anchor. -/
  findA : Option SubNode
  /-- `element.find('a', href=True)`: first descendant anchor carrying an
  `href` attribute (used by `main_backup.py`). -/
  findAWithHref : Option SubNode

/-- The parsed search-results document, observed through the calls the
scrapers make.  `findAllTagged` holds the `['a', 'div', 'article']`
elements that carry a direct string (the candidate pool of the
`find_all(..., string=...)` fallback of `google_news_scraper.py` line 147,
before its text filter, which is applied in `findCandidates` below);
`findAllArticleDiv` holds all `['article', 'div']` elements (the
unfiltered fallback pool of `main_backup.py` line 179). -/
structure Soup where
  select : String → List Element
  findAllTagged : List Element
  findAllArticleDiv : List Element

/-- First selector of the cascade whose `select_one` hits, and its hit
(the `for selector in ...: if node: break` idiom used for every field). -/
def selCascade (el : Element) : List String → Option SubNode
  | [] => none
  | s :: rest =>
    match el.selOne s with
    | some n => some n
    | none => selCascade el rest

/-! ### FieldExtractor (`_extract_article_data`) -/

/-- Title sub-selectors (`google_news_scraper.py` line 194). -/
def titleSelectors : List String := ["h3", "h4", ".JtKRv", ".ipQwMb", ".mCBkyc"]

/-- Source sub-selectors (line 228). -/
def sourceSelectors : List String := [".wEwyrc", ".vr1PYe", ".CEMjEf"]

/-- Time sub-selectors (line 236). -/
def timeSelectors : List String := [".r0bn4c", ".WW6dff", "time"]

/-- Snippet sub-selectors (line 246). -/
def descSelectors : List String := [".st", ".Y3v8qd"]

/-- Relative-href rewrite of `_extract_article_data` lines 221-224 (and
`_normalize_gnews_href` of `main_backup.py`): `./x` and `/x` are prefixed
with the aggregator origin; a pure string rewrite. -/
def normalizeHref (href : String) : String :=
  if href.startsWith "./" then "https://news.google.com" ++ href.drop 1
  else if href.startsWith "/" then "https://news.google.com" ++ href
  else href

/-- An extracted article record (the dict built by
`_extract_article_data`; `none` fields are absent keys). -/
structure Article where
  title : String
  url : Option String
  source : Option String
  timeText : Option String
  datetime : Option Int
  description : Option String
deriving DecidableEq

/-- `GoogleNewsScraper._extract_article_data` (`google_news_scraper.py`
lines 179-257, identical in `main.py` lines 169-229).  The empty string
stands for Python's falsy title.  Candidates with a missing or short
title, or whose title does not contain the person's name
case-insensitively, are rejected (`return None`). -/
def extractArticleData (el : Element) (personName : String) (now : Int) : Option Article :=
  let t0 : String :=
    match selCascade el titleSelectors with
    | some n => n.text
    | none => ""
  let title := if t0 = "" && el.name = "a" then el.text else t0
  if title = "" || title.length < 10 then none
  else if !containsCI title personName then none
  else
    let linkEl : Option SubNode :=
      if el.name = "a" then some ⟨el.text, el.href⟩ else el.findA
    let url : Option String :=
      match linkEl with
      | none => none
      | some l =>
        match l.href with
        | none => none
        | some h => if h = "" then none else some (normalizeHref h)
    let source := (selCascade el sourceSelectors).map (fun n => n.text)
    let timeNode := selCascade el timeSelectors
    some { title := title
           url := url
           source := source
           timeText := timeNode.map (fun n => n.text)
           datetime :=
             match timeNode with
             | some n => parseTimeAgo n.text now
             | none => none
           description := (selCascade el descSelectors).map (fun n => n.text) }

/-! ### Time-window filter -/

/-- `GoogleNewsScraper._is_within_days` (`google_news_scraper.py` lines
79-94): false for an absent time, otherwise
`article_time >= datetime.now() - timedelta(days=days)`. -/
def isWithinDays (articleTime : Option Int) (days : Nat) (now : Int) : Bool :=
  match articleTime with
  | none => false
  | some t => decide (now - 86400 * (days : Int) ≤ t)

/-- The pass condition of `search_news` line 159:
`not days or not article_time or self._is_within_days(article_time, days)`
(`days = 0` encodes the falsy "no window requested"). -/
def passesTimeFilter (days : Nat) (articleTime : Option Int) (now : Int) : Bool :=
  days == 0 || articleTime.isNone || isWithinDays articleTime days now

/-! ### CandidateScanner -/

/-- The fixed selector priority list of `search_news`
(`google_news_scraper.py` lines 129-136). -/
def structuralSelectors : List String :=
  ["article", "[data-n-au]", ".JtKRv", ".xrnccd", ".WwrzSb", ".DY5T1d"]

/-- The `for selector in selectors: found = soup.select(selector);
if found: break` loop (lines 139-143): first selector with a nonempty
result wins; later selectors are not consulted. -/
def scanStructural (soup : Soup) : List String → List Element
  | [] => []
  | s :: rest =>
    match soup.select s with
    | [] => scanStructural soup rest
    | e :: found => e :: found

/-- Candidate scan of `search_news` (lines 129-148): the structural
cascade, then — only if it produced nothing — the
`find_all(['a', 'div', 'article'], string=re.compile(person_name, re.IGNORECASE))`
fallback.  The compiled-name filter is modeled as a case-insensitive
substring test, exact for names without regex metacharacters. -/
def findCandidates (soup : Soup) (personName : String) : List Element :=
  match scanStructural soup structuralSelectors with
  | [] => soup.findAllTagged.filter (fun el => containsCI el.text personName)
  | e :: found => e :: found

/-! ### ArticleExtractionPipeline (`search_news`) -/

/-- The accumulation loop of `search_news` (lines 152-167): extract each
candidate, keep records with a truthy title that pass the time filter,
and break once `max_results` records have been accumulated.  Per-candidate
failures are already isolated inside `extractArticleData`. -/
def searchLoop (personName : String) (days maxResults : Nat) (now : Int) :
    List Element → List Article → List Article
  | [], acc => acc
  | el :: rest, acc =>
    match extractArticleData el personName now with
    | none => searchLoop personName days maxResults now rest acc
    | some d =>
      if d.title = "" then searchLoop personName days maxResults now rest acc
      else if passesTimeFilter days d.datetime now then
        if maxResults ≤ (acc ++ [d]).length then acc ++ [d]
        else searchLoop personName days maxResults now rest (acc ++ [d])
      else searchLoop personName days maxResults now rest acc

/-- `search_news` from the candidate list on: the loop runs over
`found_articles[:max_results * 2]` (line 152) and the result is cut to
`articles[:max_results]` (line 170). -/
def searchCore (personName : String) (days maxResults : Nat) (now : Int)
    (candidates : List Element) : List Article :=
  (searchLoop personName days maxResults now (candidates.take (maxResults * 2)) []).take maxResults

/-- `GoogleNewsScraper.search_news` of `google_news_scraper.py` lines
96-177: the fetch outcome is passed in (`.error` is a raised
`requests.RequestException`, which the `except` arm at lines 172-174
swallows into an empty list). -/
def searchNewsGoogle (personName : String) (days maxResults : Nat) (now : Int)
    (fetch : Except String Soup) : List Article :=
  match fetch with
  | .error _ => []
  | .ok soup => searchCore personName days maxResults now (findCandidates soup personName)

/-- `GoogleNewsScraper.search_news` of `main.py` lines 95-167: the same
pipeline, but any fetch failure is re-raised to the caller as
`Exception(f"Erro na busca: {e}")` (line 167).  The post-loop conversion of
`datetime` to an ISO `published_at` string and the `setdefault` calls are
response serialization and are not modeled. -/
def searchNewsApi (personName : String) (days maxResults : Nat) (now : Int)
    (fetch : Except String Soup) : Except String (List Article) :=
  match fetch with
  | .error e => .error ("Erro na busca: " ++ e)
  | .ok soup => .ok (searchCore personName days maxResults now (findCandidates soup personName))

/-! ### The `main_backup.py` scraper variant (lines 170-242)

This variant inlines field extraction into the search loop.  Its title
threshold is 6 instead of 10 and — notably — it has no subject-name
relevance check. -/

/-- Title sub-selectors of `main_backup.py` line 188. -/
def backupTitleSelectors : List String :=
  ["h3", "h4", "a.DY5T1d", ".JtKRv", ".ipQwMb", ".mCBkyc"]

/-- Snippet sub-selectors of `main_backup.py` line 223 (order differs from
the other variants). -/
def backupDescSelectors : List String := [".Y3v8qd", ".st"]

/-- One result dict of `main_backup.py` lines 233-240 (absent matches are
stored as empty strings there, not absent keys). -/
structure BkRecord where
  title : String
  source : String
  url : String
  timeText : String
  datetime : Option Int
  description : String
deriving DecidableEq

/-- The per-candidate body of `main_backup.py` lines 186-227 (title
cascade with falsy fallback to the element's own text when it is an
anchor, `len(title) < 6` rejection, link through `find('a', href=True)`,
source/time/snippet cascades).  There is no relevance check: the person's
name is never consulted. -/
def backupProcessEl (el : Element) (now : Int) : Option BkRecord :=
  let t0 : String :=
    match selCascade el backupTitleSelectors with
    | some n => n.text
    | none => ""
  let title := if t0 = "" && el.name = "a" then el.text else t0
  if title = "" || title.length < 6 then none
  else
    let linkEl : Option SubNode :=
      if el.name = "a" then some ⟨el.text, el.href⟩ else el.findAWithHref
    let url : String :=
      match linkEl with
      | none => ""
      | some l =>
        match l.href with
        | none => normalizeHref ""
        | some h => normalizeHref h
    let source : String :=
      match selCascade el sourceSelectors with
      | some n => n.text
      | none => ""
    let timeNode := selCascade el timeSelectors
    some { title := title
           source := source
           url := url
           timeText :=
             match timeNode with
             | some n => n.text
             | none => ""
           datetime :=
             match timeNode with
             | some n => backupParseTimeAgo n.text now
             | none => none
           description :=
             match selCascade el backupDescSelectors with
             | some n => n.text
             | none => "" }

/-- The candidate loop of `main_backup.py` lines 182-240: break at
`max_results`, skip rejected candidates, and skip a record only when a
window was requested AND a timestamp was resolved AND it falls outside the
window (line 230). -/
def backupLoop (days maxResults : Nat) (now : Int) :
    List Element → List BkRecord → List BkRecord
  | [], acc => acc
  | el :: rest, acc =>
    if maxResults ≤ acc.length then acc
    else
      match backupProcessEl el now with
      | none => backupLoop days maxResults now rest acc
      | some r =>
        if days != 0 && r.datetime.isSome && !isWithinDays r.datetime days now then
          backupLoop days maxResults now rest acc
        else backupLoop days maxResults now rest (acc ++ [r])

/-- The candidate scan of `main_backup.py` lines 177-179:
`soup.select("article") or soup.select(".xrnccd") or []`, then — if still
empty — `soup.find_all(["article", "div"])` with no text condition. -/
def backupCandidates (soup : Soup) : List Element :=
  match soup.select "article" with
  | e :: found => e :: found
  | [] =>
    match soup.select ".xrnccd" with
    | e :: found => e :: found
    | [] => soup.findAllArticleDiv

/-- `GoogleNewsScraper.search_news` of `main_backup.py` lines 170-242
(fetch errors propagate to the API layer and are not modeled here; the
`person_name` argument is used only to build the query URL). -/
def backupSearchNews (_personName : String) (days maxResults : Nat) (now : Int)
    (soup : Soup) : List BkRecord :=
  (backupLoop days maxResults now (backupCandidates soup) []).take maxResults

/-! ### LinkResolver (`get_final_url_complete`)

`resolutor_de_url.py` lines 6-42 (the `main_backup.py` copy at lines
53-112 differs only in logging, timeouts, and in not requiring the
request-tier terminal address to differ from the input).  The two network
tiers are passed in as outcome values:
- `TierOutcome.ok u`: the `requests.get(..., allow_redirects=True)` call
  completed and `response.url = u` / the browser's `current_url` read `u`;
- `TierOutcome.exn m`: the tier raised an exception described by `m`
  (transport failure, navigation timeout, ...).
`driver.quit()` is modeled as returning normally.  The trace records the
function's return value together with the side effects the claims speak
about: whether the browser tier was entered, whether a session was
acquired, and whether it was released. -/

/-- The aggregator's domain marker tested with `in` throughout. -/
def ndomain : String := "news.google.com"

inductive TierOutcome where
  | ok (url : String)
  | exn (msg : String)
deriving DecidableEq

/-- The browser tier's behavior: session acquisition may itself fail
(`webdriver.Chrome` raising, with `driver` never bound), or the acquired
session's navigate-settle-read sequence runs to an outcome. -/
inductive BrowserRun where
  | acquireFail (msg : String)
  | run (outcome : TierOutcome)
deriving DecidableEq

/-- Observable outcome of one `get_final_url_complete` call. -/
structure ResolverTrace where
  /-- The Python return value (`final URL` or `None`). -/
  result : Option String
  /-- The Selenium `try` block was entered. -/
  browserInvoked : Bool
  /-- `webdriver.Chrome(...)` returned a session. -/
  sessionAcquired : Bool
  /-- `driver.quit()` was called. -/
  sessionReleased : Bool
deriving DecidableEq

/-- The Selenium tier (`resolutor_de_url.py` lines 22-41): on success the
session is quit before the domain test; on an exception after acquisition
the `except` arm quits it (`if 'driver' in locals(): driver.quit()`); if
acquisition itself failed there is no session to quit. -/
def browserTier (browser : BrowserRun) : ResolverTrace :=
  match browser with
  | .acquireFail _ => ⟨none, true, false, false⟩
  | .run (.exn _) => ⟨none, true, true, true⟩
  | .run (.ok cur) =>
    if !strContainsSub cur ndomain then ⟨some cur, true, true, true⟩
    else ⟨none, true, true, true⟩

/-- `get_final_url_complete` (`resolutor_de_url.py` lines 6-42): tier 1
returns the request's terminal address when it both changed and left the
aggregator's domain (line 17); otherwise — also when the request raised —
tier 2 runs; if neither resolves, the function returns `None`. -/
def getFinalUrlComplete (url : String) (req : TierOutcome) (browser : BrowserRun) :
    ResolverTrace :=
  match req with
  | .ok finalUrl =>
    if finalUrl != url && !strContainsSub finalUrl ndomain then
      ⟨some finalUrl, false, false, false⟩
    else browserTier browser
  | .exn _ => browserTier browser

/-- Resolution method of the spec's `ResolutionResult` (section 3). -/
inductive ResMethod where
  | directRedirect | browserRedirect | unchanged | error
deriving DecidableEq

/-- The spec's `ResolutionResult` record. -/
structure ResolutionResult where
  original : String
  resolved : Option String
  method : ResMethod
  diagnostic : Option String
deriving DecidableEq

/-- The request-tier error, if any, kept as a diagnostic. -/
def reqErrOf : TierOutcome → Option String
  | .ok _ => none
  | .exn m => some m

/-- The browser-attempted stage of the resolver state machine, with each
exit of the code tagged by the spec's method name.  Modelled from the
spec for two enrichments the code leaves implicit: the
`enabled` flag (the spec's browser-fallback switch of section 4.5 step 6;
the source always attempts the browser tier, i.e. `enabled = true`), and
the `unchanged` result carrying the original link where the code returns
`None` and its caller keeps the original link. -/
def browserStep (url : String) (reqErr : Option String) (browser : BrowserRun)
    (enabled : Bool) : ResolutionResult :=
  if !enabled then ⟨url, some url, .unchanged, reqErr⟩
  else
    match browser with
    | .acquireFail m => ⟨url, none, .error, some m⟩
    | .run (.exn m) => ⟨url, none, .error, some m⟩
    | .run (.ok cur) =>
      if !strContainsSub cur ndomain then ⟨url, some cur, .browserRedirect, none⟩
      else ⟨url, some url, .unchanged, reqErr⟩

/-- `get_final_url_complete` as the spec's state machine (section 4.5):
the control flow of `resolutor_de_url.py` with each return site tagged by
its `ResolutionResult` method. -/
def resolveLink (url : String) (req : TierOutcome) (browser : BrowserRun)
    (enabled : Bool) : ResolutionResult :=
  match req with
  | .ok finalUrl =>
    if finalUrl != url && !strContainsSub finalUrl ndomain then
      ⟨url, some finalUrl, .directRedirect, none⟩
    else browserStep url none browser enabled
  | .exn m => browserStep url (some m) browser enabled

/-! ### BatchResolver -/

/-- A completion order for `n` independent resolution units: every unit
finishes exactly once, in an arbitrary order (the pool's worker cap and
the per-link timeouts govern timing only, so any order can occur). -/
structure BatchSchedule (n : Nat) where
  order : List (Fin n)
  nodup : order.Nodup
  complete : ∀ i : Fin n, i ∈ order

/-- Modelled from the spec: the repository has no batch resolver under
src/ (the API of `main_backup.py` resolves links one at a time inside its
response loop); this models section 4.6's `BatchResolver` contract — run
`LinkResolver` independently for every link under a bounded worker pool
and collect the results keyed by original link, in completion order. -/
def batchResolve (links : List String) (resolve : String → ResolutionResult)
    (s : BatchSchedule links.length) : List (String × ResolutionResult) :=
  s.order.map (fun i => (links.get i, resolve (links.get i)))

/-! ### Per-claim concrete instances (documents, elements, schedules) -/

/-- A candidate whose `h3` title does not mention the queried person. -/
def c1BkEl : Element :=
  { name := "article", text := "", href := none
    selOne := fun s => if s = "h3" then some ⟨"Campeonato Brasileiro segue aberto", none⟩ else none
    findA := none, findAWithHref := none }

/-- A document whose `article` selector yields exactly `c1BkEl`. -/
def c1BkSoup : Soup :=
  { select := fun s => if s = "article" then [c1BkEl] else []
    findAllTagged := [], findAllArticleDiv := [] }

/-- A candidate whose `h3` title does mention the queried person. -/
def c1WEl : Element :=
  { name := "article", text := "", href := none
    selOne := fun s => if s = "h3" then some ⟨"Renato Cariani anuncia novo projeto", none⟩ else none
    findA := none, findAWithHref := none }

/-- A document whose `article` selector yields exactly `c1WEl`. -/
def c1WSoup : Soup :=
  { select := fun s => if s = "article" then [c1WEl] else []
    findAllTagged := [], findAllArticleDiv := [] }

/-- The record the pipeline extracts from `c1WEl`. -/
def c1Demo : Article :=
  { title := "Renato Cariani anuncia novo projeto", url := none, source := none
    timeText := none, datetime := none, description := none }

/-- A document matched by the first structural selector. -/
def c4ElA : Element := ⟨"article", "x", none, fun _ => none, none, none⟩

/-- Document for the first-selector-wins instance. -/
def c4SoupA : Soup := ⟨fun s => if s = "article" then [c4ElA] else [], [], []⟩

/-- A generic element mentioning the person. -/
def c4ElB : Element := ⟨"a", "Renato Cariani hoje", none, fun _ => none, none, none⟩

/-- A generic element not mentioning the person. -/
def c4ElC : Element := ⟨"div", "outra coisa qualquer", none, fun _ => none, none, none⟩

/-- Document where every structural selector misses. -/
def c4SoupB : Soup := ⟨fun _ => [], [c4ElB, c4ElC], []⟩

/-- An `['article', 'div']` element whose text does not mention the
person, sitting in `main_backup.py`'s unfiltered fallback pool. -/
def c4BkEl : Element := ⟨"div", "Campeonato Brasileiro de 2025", none, fun _ => none, none, none⟩

/-- Document where both of `main_backup.py`'s selectors miss. -/
def c4BkSoup : Soup := ⟨fun _ => [], [], [c4BkEl]⟩

/-- A document with no candidates at all. -/
def c7Soup : Soup := ⟨fun _ => [], [], []⟩

/-- Five distinct aggregator links. -/
def c9Links : List String :=
  [ "https://news.google.com/read/a", "https://news.google.com/read/b",
    "https://news.google.com/read/c", "https://news.google.com/read/d",
    "https://news.google.com/read/e" ]

/-- A resolver stub for the batch instance. -/
def c9Resolve : String → ResolutionResult := fun l => ⟨l, some l, .unchanged, none⟩

/-- A completion order out of input order (worker cap 2 in the spec's
instance; the cap affects timing only). -/
def c9Schedule : BatchSchedule c9Links.length :=
  ⟨[⟨3, by decide⟩, ⟨0, by decide⟩, ⟨4, by decide⟩, ⟨1, by decide⟩, ⟨2, by decide⟩],
   by decide, by decide⟩

/-- A candidate that extracts to a record for the queried person. -/
def c10Good : Element :=
  { name := "article", text := "", href := none
    selOne := fun s => if s = "h3" then some ⟨"Renato Cariani em alta no mercado", none⟩ else none
    findA := none, findAWithHref := none }

/-- A candidate that extracts to nothing. -/
def c10Bad : Element := ⟨"div", "", none, fun _ => none, none, none⟩

/-! ### Helper lemmas -/

theorem timeOffset_linear (v : Nat) (u : TimeUnit) :
    timeOffset v u = (v : Int) * unitSeconds u := by
  cases u <;> simp [timeOffset, unitSeconds] <;> ring_nf

theorem parseLoop_eq_matchLoop (rules : List GRule) (t : List Char) (now : Int) :
    parseLoop rules t now = (matchLoop rules t).map (fun r => now - timeOffset r.1 r.2) := by
  induction rules with
  | nil => rfl
  | cons r rest ih =>
    simp only [parseLoop, matchLoop]
    cases h : searchRule (matchRuleAt r.word r.optS) (suffixes t) <;> simp [h, ih]

/-- The backup table's probe: first rule that fires, with its captured
value, unit and factor. -/
def backupMatchLoop : List ((List Char → Option Nat) × TimeUnit × Nat) → List Char →
    Option (Nat × TimeUnit × Nat)
  | [], _ => none
  | (m, u, f) :: rest, t =>
    match searchRule m (suffixes t) with
    | some v => some (v, u, f)
    | none => backupMatchLoop rest t

theorem backupParseLoop_eq_matchLoop (rules : List ((List Char → Option Nat) × TimeUnit × Nat))
    (t : List Char) (now : Int) :
    backupParseLoop rules t now
      = (backupMatchLoop rules t).map (fun r => now - timeOffset (r.1 * r.2.2) r.2.1) := by
  induction rules with
  | nil => rfl
  | cons r rest ih =>
    obtain ⟨m, u, f⟩ := r
    simp only [backupParseLoop, backupMatchLoop]
    cases h : searchRule m (suffixes t) <;> simp [h, ih]

/-! ### Claim theorems -/

/-- C2: a record passes the time-window filter iff no window was
requested (`days = 0`), or the record has no resolved timestamp, or its
resolved timestamp is at least `now` minus `days` days; in particular,
with `days = 7` a record timestamped 10 days ago is excluded and a record
with no timestamp is included. -/
theorem time_window_filter_iff :
    (∀ (days : Nat) (articleTime : Option Int) (now : Int),
        passesTimeFilter days articleTime now = true ↔
          (days = 0 ∨ articleTime = none ∨
            ∃ t, articleTime = some t ∧ now - 86400 * (days : Int) ≤ t))
    ∧ (∀ now : Int, passesTimeFilter 7 (some (now - 864000)) now = false)
    ∧ (∀ now : Int, passesTimeFilter 7 none now = true) := by
  refine ⟨?_, ?_, ?_⟩
  · intro days articleTime now
    cases articleTime with
    | none => simp [passesTimeFilter, isWithinDays]
    | some t => simp [passesTimeFilter, isWithinDays]
  · intro now
    simp only [passesTimeFilter, isWithinDays, Option.isNone]
    norm_num
    omega
  · intro now
    simp [passesTimeFilter, isWithinDays]

/-- C3: for every phrase matching a supported relative-time pattern with
integer `n`, `_parse_time_ago` returns `now` minus `n` scaled linearly by
the matched unit (minutes, hours, days, weeks as 7 days, months as 30
days, years as 365 days); a phrase matching no pattern yields `none` (the
embedding is total, so no error is possible).  The concrete conjuncts
exercise the spec's `"3 horas atrás"` instance and an unsupported phrase,
for both the `google_news_scraper.py` table and the `main_backup.py`
table. -/
theorem parse_time_ago_linear :
    (∀ (text : String) (now : Int),
        parseTimeAgo text now =
          (firstPatternMatch text).map (fun r => now - (r.1 : Int) * unitSeconds r.2))
    ∧ (∀ now : Int, parseTimeAgo "3 horas atrás" now = some (now - 10800))
    ∧ (∀ now : Int, parseTimeAgo "amanhã de manhã" now = none)
    ∧ (∀ now : Int, backupParseTimeAgo "3 horas atrás" now = some (now - 10800))
    ∧ (∀ now : Int, backupParseTimeAgo "amanhã de manhã" now = none) := by
  have hmain : ∀ (text : String) (now : Int),
      parseTimeAgo text now =
        (firstPatternMatch text).map (fun r => now - (r.1 : Int) * unitSeconds r.2) := by
    intro text now
    rw [parseTimeAgo, firstPatternMatch, parseLoop_eq_matchLoop]
    rcases matchLoop googleRules (normalizeTime text) with _ | ⟨v, u⟩
    · rfl
    · simp [timeOffset_linear]
  refine ⟨hmain, ?_, ?_, ?_, ?_⟩
  · intro now
    rw [hmain]
    have h : firstPatternMatch "3 horas atrás" = some (3, .hours) := by decide
    rw [h]
    simp [unitSeconds]
  · intro now
    rw [hmain]
    have h : firstPatternMatch "amanhã de manhã" = none := by decide
    rw [h]
    rfl
  · intro now
    rw [backupParseTimeAgo, backupParseLoop_eq_matchLoop]
    have h : backupMatchLoop backupRules (normalizeTime "3 horas atrás") = some (3, .hours, 1) := by
      decide
    rw [h]
    simp [timeOffset]
  · intro now
    rw [backupParseTimeAgo, backupParseLoop_eq_matchLoop]
    have h : backupMatchLoop backupRules (normalizeTime "amanhã de manhã") = none := by decide
    rw [h]
    rfl

theorem extract_relevance (el : Element) (personName : String) (now : Int) (d : Article)
    (h : extractArticleData el personName now = some d) :
    containsCI d.title personName = true := by
  simp only [extractArticleData] at h
  split at h <;> split at h <;> try exact Option.noConfusion h
  all_goals split at h <;> try exact Option.noConfusion h
  all_goals
    rename_i hc
    obtain rfl := Option.some.inj h
    simp only [Bool.not_eq_true'] at hc
    simpa using hc

theorem mem_searchLoop (personName : String) (days maxResults : Nat) (now : Int) :
    ∀ (els : List Element) (acc : List Article) (d : Article),
      d ∈ searchLoop personName days maxResults now els acc →
      d ∈ acc ∨ ∃ el, extractArticleData el personName now = some d := by
  intro els
  induction els with
  | nil => intro acc d h; exact Or.inl h
  | cons el rest ih =>
    intro acc d h
    cases hx : extractArticleData el personName now with
    | none =>
      simp only [searchLoop, hx] at h
      exact ih acc d h
    | some a =>
      simp only [searchLoop, hx] at h
      split at h
      · exact ih acc d h
      · split at h
        · split at h
          · rcases List.mem_append.mp h with hmem | hmem
            · exact Or.inl hmem
            · exact Or.inr ⟨el, by rw [hx, List.mem_singleton.mp hmem]⟩
          · rcases ih (acc ++ [a]) d h with hmem | hex
            · rcases List.mem_append.mp hmem with h1 | h1
              · exact Or.inl h1
              · exact Or.inr ⟨el, by rw [hx, List.mem_singleton.mp h1]⟩
            · exact Or.inr hex
        · exact ih acc d h

/-- C1 (amended): every `ArticleRecord` materialized through
`_extract_article_data` — i.e. by the `search_news` pipelines of
`google_news_scraper.py` and `main.py` — has the queried subject name as
a case-insensitive substring of its title; candidates failing the check
are rejected before a record exists.  (The `main_backup.py` `search_news`
variant does not enforce this; see the counterexample.) -/
theorem search_news_title_relevance (personName : String) (days maxResults : Nat)
    (now : Int) (fetch : Except String Soup) (d : Article)
    (hd : d ∈ searchNewsGoogle personName days maxResults now fetch) :
    containsCI d.title personName = true := by
  cases fetch with
  | error e => simp [searchNewsGoogle] at hd
  | ok soup =>
    simp only [searchNewsGoogle, searchCore] at hd
    have h1 := List.take_subset _ _ hd
    rcases mem_searchLoop personName days maxResults now _ _ d h1 with h2 | ⟨el, hex⟩
    · simp at h2
    · exact extract_relevance el personName now d hex

/-- C1 witness: a concrete pipeline run materializes `c1Demo`, whose
title contains the queried name. -/
theorem search_news_title_relevance_witness :
    containsCI c1Demo.title "Renato Cariani" = true :=
  search_news_title_relevance "Renato Cariani" 30 20 0 (.ok c1WSoup) c1Demo (by decide)

/-- C1 counterexample: the `search_news` of `main_backup.py` (one of the
claim's cited extraction pipelines) materializes a record whose title
does not contain the queried subject name: it never consults the name. -/
theorem backup_materializes_irrelevant_title :
    backupSearchNews "Renato Cariani" 30 20 0 c1BkSoup =
      [{ title := "Campeonato Brasileiro segue aberto", source := "", url := ""
         timeText := "", datetime := none, description := "" }]
    ∧ containsCI "Campeonato Brasileiro segue aberto" "Renato Cariani" = false := by
  exact ⟨by decide, by decide⟩

theorem scanStructural_eq_first (soup : Soup) (sels : List String) :
    ∀ (k : Nat) (hk : k < sels.length),
      (∀ j (hj : j < sels.length), j < k → soup.select (sels.get ⟨j, hj⟩) = []) →
      soup.select (sels.get ⟨k, hk⟩) ≠ [] →
      scanStructural soup sels = soup.select (sels.get ⟨k, hk⟩) := by
  induction sels with
  | nil => intro k hk; exact absurd hk (by simp)
  | cons s rest ih =>
    intro k hk hprev hne
    cases k with
    | zero =>
      cases h : soup.select s with
      | nil => exact absurd h hne
      | cons e f =>
        simp only [scanStructural, h]
        exact h.symm
    | succ k' =>
      have h0 : soup.select s = [] := hprev 0 (by simp) (Nat.succ_pos k')
      simp only [scanStructural, h0]
      exact ih k' (Nat.lt_of_succ_lt_succ hk)
        (fun j hj hlt => hprev (j + 1) (by simpa using Nat.succ_lt_succ hj)
          (Nat.succ_lt_succ hlt)) hne

theorem scanStructural_nil_of_all (soup : Soup) (sels : List String)
    (h : ∀ s ∈ sels, soup.select s = []) :
    scanStructural soup sels = [] := by
  induction sels with
  | nil => rfl
  | cons s rest ih =>
    simp only [scanStructural, h s (by simp)]
    exact ih (fun x hx => h x (by simp [hx]))

/-- C4 (amended): in `google_news_scraper.py` / `main.py` the candidate
scan uses exclusively the results of the first structural selector with a
nonempty result (later selectors never influence the outcome), and falls
back to generic elements whose text contains the subject name
case-insensitively only when every structural selector yields nothing.
`main_backup.py`'s scan is also first-success-wins over its two-selector
list, but its fallback is unfiltered (see the counterexample). -/
theorem candidate_scan_first_wins :
    (∀ (soup : Soup) (personName : String) (k : Nat) (hk : k < structuralSelectors.length),
        (∀ j (hj : j < structuralSelectors.length), j < k →
            soup.select (structuralSelectors.get ⟨j, hj⟩) = []) →
        soup.select (structuralSelectors.get ⟨k, hk⟩) ≠ [] →
        findCandidates soup personName = soup.select (structuralSelectors.get ⟨k, hk⟩))
    ∧ (∀ (soup : Soup) (personName : String),
        (∀ s ∈ structuralSelectors, soup.select s = []) →
        findCandidates soup personName
          = soup.findAllTagged.filter (fun el => containsCI el.text personName))
    ∧ (∀ soup : Soup, soup.select "article" ≠ [] →
        backupCandidates soup = soup.select "article") := by
  refine ⟨?_, ?_, ?_⟩
  · intro soup personName k hk hprev hne
    have h := scanStructural_eq_first soup structuralSelectors k hk hprev hne
    cases hsel : soup.select (structuralSelectors.get ⟨k, hk⟩) with
    | nil => exact absurd hsel hne
    | cons e f =>
      rw [hsel] at h
      simp only [findCandidates, h, hsel]
  · intro soup personName hall
    have h := scanStructural_nil_of_all soup structuralSelectors hall
    simp only [findCandidates, h]
  · intro soup hne
    cases hsel : soup.select "article" with
    | nil => exact absurd hsel hne
    | cons e f => simp only [backupCandidates, hsel]

/-- C4 witness: with the first selector nonempty the scan returns exactly
its results; with every selector empty it returns the name-filtered
generic elements; `main_backup.py`'s scan likewise returns the first
selector's results. -/
theorem candidate_scan_first_wins_witness :
    findCandidates c4SoupA "Renato Cariani" = c4SoupA.select "article"
    ∧ findCandidates c4SoupB "Renato Cariani"
        = c4SoupB.findAllTagged.filter (fun el => containsCI el.text "Renato Cariani")
    ∧ backupCandidates c4SoupA = c4SoupA.select "article" := by
  refine ⟨candidate_scan_first_wins.1 c4SoupA "Renato Cariani" 0 (by decide)
            (fun j hj hlt => absurd hlt (Nat.not_lt_zero j)) ?_,
          candidate_scan_first_wins.2.1 c4SoupB "Renato Cariani" (fun s _ => rfl),
          candidate_scan_first_wins.2.2 c4SoupA ?_⟩
  · simp [c4SoupA, structuralSelectors]
  · simp [c4SoupA]

/-- C4 counterexample: `main_backup.py`'s scan (`search_news` lines
177-179, cited by the claim) falls back, when both of its structural
selectors miss, to all `article`/`div` elements with no text condition:
the fallback candidate list contains an element whose visible text does
not contain the subject name. -/
theorem backup_fallback_unfiltered :
    backupCandidates c4BkSoup = [c4BkEl]
    ∧ containsCI c4BkEl.text "Renato Cariani" = false := by
  exact ⟨rfl, by decide⟩

/-- C5 counterexample: an input link whose request tier terminates at the
very same address, outside the aggregator's domain (a zero-length
redirect chain).  `resolutor_de_url.py` line 17 additionally requires
`response.url != google_news_url`, so the resolver does not return it as
a direct redirect: the browser tier IS invoked and the result's method is
`browser-redirect`, not `direct-redirect`. -/
theorem direct_redirect_counterexample :
    strContainsSub "https://example.com/a" ndomain = false
    ∧ (getFinalUrlComplete "https://example.com/a" (.ok "https://example.com/a")
        (.run (.ok "https://example.com/a"))).browserInvoked = true
    ∧ (resolveLink "https://example.com/a" (.ok "https://example.com/a")
        (.run (.ok "https://example.com/a")) true).method ≠ .directRedirect := by
  exact ⟨by decide, by decide, by decide⟩

/-- C5 (amended): for every input link whose request-tier redirect chain
terminates at an address different from the input link and outside the
aggregator's domain, the resolver returns that terminal address with
method `direct-redirect`, and the browser tier is never invoked. -/
theorem direct_redirect_resolves (url finalUrl : String) (browser : BrowserRun)
    (hne : finalUrl ≠ url) (hout : strContainsSub finalUrl ndomain = false) :
    resolveLink url (.ok finalUrl) browser true
      = ⟨url, some finalUrl, .directRedirect, none⟩
    ∧ (getFinalUrlComplete url (.ok finalUrl) browser).browserInvoked = false := by
  have hcond : (finalUrl != url && !strContainsSub finalUrl ndomain) = true := by
    simp [Bool.and_eq_true, bne_iff_ne, hne, hout]
  constructor
  · simp [resolveLink, hcond]
  · simp [getFinalUrlComplete, hcond]

/-- C5 witness: a first-tier redirect that lands on the publisher. -/
theorem direct_redirect_witness :
    resolveLink "https://news.google.com/read/x" (.ok "https://g1.globo.com/noticia")
        (.run (.ok "https://news.google.com/read/x")) true
      = ⟨"https://news.google.com/read/x", some "https://g1.globo.com/noticia",
         .directRedirect, none⟩
    ∧ (getFinalUrlComplete "https://news.google.com/read/x" (.ok "https://g1.globo.com/noticia")
        (.run (.ok "https://news.google.com/read/x"))).browserInvoked = false :=
  direct_redirect_resolves "https://news.google.com/read/x" "https://g1.globo.com/noticia"
    (.run (.ok "https://news.google.com/read/x")) (by decide) (by decide)

/-- C6: when neither tier leaves the aggregator's domain — the request
tier ended on-domain or unchanged (or failed), and the browser tier
(when enabled) read an on-domain address — and also when the browser
fallback is disabled, the resolver returns the original link with method
`unchanged`, carrying the request-tier error (if any) as diagnostic. -/
theorem unchanged_result_holds (url : String) (req : TierOutcome) (browser : BrowserRun)
    (enabled : Bool)
    (h1 : ∀ f, req = .ok f → f = url ∨ strContainsSub f ndomain = true)
    (h2 : enabled = true → ∃ cur, browser = .run (.ok cur) ∧ strContainsSub cur ndomain = true) :
    resolveLink url req browser enabled = ⟨url, some url, .unchanged, reqErrOf req⟩ := by
  have hstep : browserStep url (reqErrOf req) browser enabled
      = ⟨url, some url, .unchanged, reqErrOf req⟩ := by
    cases enabled with
    | false => simp [browserStep]
    | true =>
      obtain ⟨cur, rfl, hcur⟩ := h2 rfl
      simp [browserStep, hcur]
  cases req with
  | exn m => simpa [resolveLink, reqErrOf] using hstep
  | ok f =>
    have hcond : (f != url && !strContainsSub f ndomain) = false := by
      rcases h1 f rfl with h | h <;> simp [h]
    simpa [resolveLink, reqErrOf, hcond] using hstep

/-- C6 witness: request tier times out, browser stays on the aggregator's
domain; the result is `unchanged` with the original link and the request
error as diagnostic. -/
theorem unchanged_result_witness :
    resolveLink "https://news.google.com/read/y" (.exn "ReadTimeout")
        (.run (.ok "https://news.google.com/read/y")) true
      = ⟨"https://news.google.com/read/y", some "https://news.google.com/read/y",
         .unchanged, some "ReadTimeout"⟩ :=
  unchanged_result_holds "https://news.google.com/read/y" (.exn "ReadTimeout")
    (.run (.ok "https://news.google.com/read/y")) true
    (fun f h => nomatch h)
    (fun _ => ⟨"https://news.google.com/read/y", rfl, by decide⟩)

/-- C8: whenever the browser tier is entered, an acquired session is
released on every exit path (successful resolution, failure to leave the
domain, and any exception raised while operating the session, timeouts
included — they raise and are caught); and a browser failure after entry
yields a returned value (method `error` in the state-machine view, `None`
in the code) rather than a propagated exception.  (`driver.quit()` itself
is modeled as returning normally.) -/
theorem browser_session_released (url : String) (req : TierOutcome) (browser : BrowserRun)
    (hinv : (getFinalUrlComplete url req browser).browserInvoked = true) :
    ((getFinalUrlComplete url req browser).sessionAcquired = true →
        (getFinalUrlComplete url req browser).sessionReleased = true)
    ∧ ∀ m, browser = BrowserRun.run (.exn m) →
        (resolveLink url req browser true).method = .error
        ∧ (getFinalUrlComplete url req browser).result = none := by
  have hrel : ∀ b : BrowserRun, (browserTier b).sessionAcquired = true →
      (browserTier b).sessionReleased = true := by
    intro b
    cases b with
    | acquireFail m => simp [browserTier]
    | run o =>
      cases o with
      | exn m => simp [browserTier]
      | ok cur =>
        simp only [browserTier]
        split <;> simp
  cases req with
  | exn m0 =>
    refine ⟨hrel browser, ?_⟩
    rintro m rfl
    exact ⟨by simp [resolveLink, browserStep], by simp [getFinalUrlComplete, browserTier]⟩
  | ok f =>
    by_cases hc : (f != url && !strContainsSub f ndomain) = true
    · exfalso
      simp [getFinalUrlComplete, hc] at hinv
    · have hc' : (f != url && !strContainsSub f ndomain) = false := by
        simpa using hc
      constructor
      · simpa [getFinalUrlComplete, hc'] using hrel browser
      · rintro m rfl
        constructor
        · simp [resolveLink, hc', browserStep]
        · simp [getFinalUrlComplete, hc', browserTier]

/-- C8 witness: session crash after acquisition on an on-domain link —
the state-machine result is `error` and the code returns `None`. -/
theorem browser_release_witness :
    (resolveLink "https://news.google.com/read/z" (.ok "https://news.google.com/read/z")
        (.run (.exn "WebDriverException")) true).method = .error
    ∧ (getFinalUrlComplete "https://news.google.com/read/z" (.ok "https://news.google.com/read/z")
        (.run (.exn "WebDriverException"))).result = none :=
  (browser_session_released "https://news.google.com/read/z" (.ok "https://news.google.com/read/z")
    (.run (.exn "WebDriverException")) (by decide)).2 "WebDriverException" rfl

/-- C7 counterexample: in `google_news_scraper.py` (lines 172-174, cited
by the claim) a transport failure while fetching the search document is
swallowed: `search_news` returns `[]`, a value identical to a successful
search over an empty document, so no request-level failure is surfaced to
the caller. -/
theorem fetch_error_silent_counterexample :
    searchNewsGoogle "Renato Cariani" 30 20 0 (.error "ConnectionError") = []
    ∧ searchNewsGoogle "Renato Cariani" 30 20 0 (.error "ConnectionError")
        = searchNewsGoogle "Renato Cariani" 30 20 0 (.ok c7Soup) := by
  exact ⟨rfl, rfl⟩

/-- C7 (amended): a transport or HTTP failure while fetching the search
document aborts the whole extraction in every variant and never yields
partial results; `main.py` surfaces it to the caller as a request-level
failure (re-raised as `Erro na busca`), while `google_news_scraper.py`
returns an empty list indistinguishable from an empty success. -/
theorem fetch_error_aborts (personName : String) (days maxResults : Nat) (now : Int)
    (e : String) :
    searchNewsApi personName days maxResults now (.error e)
      = .error ("Erro na busca: " ++ e)
    ∧ searchNewsGoogle personName days maxResults now (.error e) = [] :=
  ⟨rfl, rfl⟩

/-- C9 (spec-modelled): the batch resolution of `N` pairwise-distinct
links under a worker pool produces, for every completion order, a result
set with exactly `N` entries in which each original link appears as a key
exactly once. -/
theorem batch_resolve_complete (links : List String) (resolve : String → ResolutionResult)
    (hnd : links.Nodup) (s : BatchSchedule links.length) :
    (batchResolve links resolve s).length = links.length
    ∧ ∀ l ∈ links, ((batchResolve links resolve s).map Prod.fst).count l = 1 := by
  have hperm : s.order.Perm (List.finRange links.length) := by
    apply List.perm_of_nodup_nodup_toFinset_eq s.nodup (List.nodup_finRange _)
    ext i
    simp [s.complete i, List.mem_finRange]
  have hkeys : (batchResolve links resolve s).map Prod.fst
      = s.order.map (fun i => links.get i) := by
    simp [batchResolve, List.map_map]
  have hkperm : ((batchResolve links resolve s).map Prod.fst).Perm links := by
    rw [hkeys]
    have h2 := hperm.map (fun i => links.get i)
    have h3 : (List.finRange links.length).map (fun i => links.get i) = links :=
      List.finRange_map_get links
    rwa [h3] at h2
  constructor
  · have h4 := hkperm.length_eq
    rwa [List.length_map] at h4
  · intro l hl
    rw [hkperm.count_eq]
    exact List.count_eq_one_of_mem hnd hl

/-- C9 witness: five links, worker cap 2, a completion order different
from the input order: five entries, a sample link appearing exactly once. -/
theorem batch_resolve_witness :
    (batchResolve c9Links c9Resolve c9Schedule).length = c9Links.length
    ∧ ((batchResolve c9Links c9Resolve c9Schedule).map Prod.fst).count
        "https://news.google.com/read/c" = 1 :=
  ⟨(batch_resolve_complete c9Links c9Resolve (by decide) c9Schedule).1,
   (batch_resolve_complete c9Links c9Resolve (by decide) c9Schedule).2
     "https://news.google.com/read/c" (by decide)⟩

/-- C10: `search_news` examines at most `2 * max_results` candidates
(`found_articles[:max_results * 2]`, line 152): the pipeline's output is
fully determined by the first `2 * max_results` entries of the candidate
list, so any later candidate can never contribute a record — even when
fewer than `max_results` records were accumulated. -/
theorem candidate_cap_invariance (personName : String) (days maxResults : Nat) (now : Int)
    (cs1 cs2 : List Element)
    (h : cs1.take (maxResults * 2) = cs2.take (maxResults * 2)) :
    searchCore personName days maxResults now cs1
      = searchCore personName days maxResults now cs2 := by
  unfold searchCore
  rw [h]

/-- C10 witness: with `max_results = 1`, a third candidate that would
extract into a record is never examined, although zero records were
accumulated from the first two. -/
theorem candidate_cap_witness :
    searchCore "Renato Cariani" 0 1 0 [c10Bad, c10Bad, c10Good]
      = searchCore "Renato Cariani" 0 1 0 [c10Bad, c10Bad]
    ∧ searchCore "Renato Cariani" 0 1 0 [c10Bad, c10Bad, c10Good] = [] :=
  ⟨candidate_cap_invariance "Renato Cariani" 0 1 0 [c10Bad, c10Bad, c10Good]
      [c10Bad, c10Bad] rfl,
   by decide⟩

/-- Agreement of the method-tagged state machine with the raw code
embedding: the Python function returns exactly the resolved address on
the `direct-redirect` / `browser-redirect` exits, and `None` on the
`unchanged` / `error` exits (where the spec-level result keeps the
original link or a diagnostic instead). -/
theorem resolveLink_result_agrees (url : String) (req : TierOutcome) (browser : BrowserRun) :
    ((resolveLink url req browser true).method = ResMethod.directRedirect
        ∨ (resolveLink url req browser true).method = ResMethod.browserRedirect →
      (getFinalUrlComplete url req browser).result = (resolveLink url req browser true).resolved)
    ∧ ((resolveLink url req browser true).method = ResMethod.unchanged
        ∨ (resolveLink url req browser true).method = ResMethod.error →
      (getFinalUrlComplete url req browser).result = none) := by
  have key : ∀ (re : Option String),
      ((browserStep url re browser true).method = ResMethod.directRedirect
          ∨ (browserStep url re browser true).method = ResMethod.browserRedirect →
        (browserTier browser).result = (browserStep url re browser true).resolved)
      ∧ ((browserStep url re browser true).method = ResMethod.unchanged
          ∨ (browserStep url re browser true).method = ResMethod.error →
        (browserTier browser).result = none) := by
    intro re
    cases browser with
    | acquireFail m => simp [browserStep, browserTier]
    | run o =>
      cases o with
      | exn m => simp [browserStep, browserTier]
      | ok cur =>
        by_cases hcur : strContainsSub cur ndomain = true <;>
          simp [browserStep, browserTier, hcur]
  cases req with
  | exn m => simpa [resolveLink, getFinalUrlComplete] using key (some m)
  | ok f =>
    by_cases hc : (f != url && !strContainsSub f ndomain) = true
    · simp [resolveLink, getFinalUrlComplete, hc]
    · have hc' : (f != url && !strContainsSub f ndomain) = false := by simpa using hc
      simpa [resolveLink, getFinalUrlComplete, hc'] using key none
